import Mathlib

/-!
Verification of the RwMem design (`rwmem.py`): a Migen memory responder
(`Mem`) and a transaction driver (`Master`), embedded shallowly.

Modelling notes.
The design is a synchronous circuit simulated by Migen's event model:
* registered (`self.sync`) signals are sampled at each clock edge from the
  values committed before the edge;
* combinational (`self.comb`) signals are pure functions of the committed
  input signals and the registered state;
* a testbench generator (`Master.write` / `Master.read`) sets signals
  (committed at its next plain `yield`, which also advances one edge) and
  reads the values settled after the last edge;
* `Memory(data_width, mem_size).get_port(write_capable=True)` is a
  synchronous WRITE_FIRST port: the write commits at the edge, the read
  data is the storage word selected combinationally by a registered copy
  of the port address; the simulator replaces the memory by an array of
  `mem_size` word signals and clamps array indices to the last element;
* assigning a value to a signal truncates it modulo `2 ^ width`.
Widths from the source: `Mem` declares `m2s_addr`, `m2s_data`, `s2m_data`
as `Signal(data_width)`; the memory port address is
`bits_for(mem_size - 1)` bits; `Master` declares `m2s_addr`, `m2s_data`,
`s2m_data` as `Signal(mem_size)`.
-/

namespace RwMem

/-- Bit length of `n`, with a structural fuel argument (any `fuel ≥ n`
computes the bit length) so that concrete instances reduce in the kernel. -/
def bitLen : Nat → Nat → Nat
  | 0, _ => 0
  | _ + 1, 0 => 0
  | fuel + 1, n + 1 => bitLen fuel ((n + 1) / 2) + 1

/-- Migen `bits_for n`: number of bits needed to hold values `0..n`,
i.e. the bit length of `n`. -/
def bitsFor (n : Nat) : Nat := bitLen n n

/-- Width in bits of the memory port address signal, `bits_for(mem_size-1)`
(Migen `Signal(max=depth)` for a `Memory` of depth `mem_size`). -/
def adrBits (mem_size : Nat) : Nat := bitsFor (mem_size - 1)

/-- Values of the responder-side input signals `m2s_addr`, `m2s_data`
(`data_width` bits each) and `m2s_we` (1 bit), lines 38-40 of the source. -/
structure MemIn where
  m2s_addr : Nat
  m2s_data : Nat
  m2s_we : Bool
deriving Repr, DecidableEq

/-- Registered state of the `Mem` module: the storage array (`mem_size`
words), the memory port's registered read address (WRITE_FIRST port), and
the three `self.sync` registers `ack_we`, `addr_new`, `ack_re_reg`. -/
structure MemState where
  storage : List Nat
  adrReg : Nat
  ack_we : Bool
  addr_new : Nat
  ack_re_reg : Bool
deriving Repr, DecidableEq

/-- Combinational outputs of `Mem`, including the internal `ack_re` wire. -/
structure MemOut where
  s2m_data : Nat
  s2m_ack : Bool
  s2m_error : Bool
  ack_re : Bool
deriving Repr, DecidableEq

/-- Value on the memory port address signal: the comb assignment
`mem_ports.adr.eq(self.m2s_addr)` truncates to the port width. -/
def portAdr (mem_size addr : Nat) : Nat := addr % 2 ^ adrBits mem_size

/-- Storage index resolved for a port address: the simulator clamps an
array index to the last element. -/
def storageIndex (mem_size : Nat) (len : Nat) (addr : Nat) : Nat :=
  min (portAdr mem_size addr) (len - 1)

/-- Error logic, lines 116-122: `s2m_error = (m2s_addr >= mem_size)`,
combinational. -/
def errorOut (mem_size addr : Nat) : Bool := decide (mem_size ≤ addr)

/-- Read-acknowledge wire, lines 99-106:
`ack_re = (addr_new == m2s_addr) & (we == 0)`, combinational. -/
def ackRe (addr_new addr : Nat) (we : Bool) : Bool :=
  (addr_new == addr) && !we

/-- Combinational outputs of `Mem` from the registered state and the
current inputs: `s2m_data = mem_ports.dat_r` (storage word at the
registered port address), `s2m_ack = (ack_re | ack_we) & ~s2m_error`
(line 110), `s2m_error` as in `errorOut`. -/
def memOut (mem_size : Nat) (s : MemState) (i : MemIn) : MemOut :=
  let err := errorOut mem_size i.m2s_addr
  let are := ackRe s.addr_new i.m2s_addr i.m2s_we
  { s2m_data := s.storage.getD (min s.adrReg (s.storage.length - 1)) 0
    s2m_ack := (are || s.ack_we) && !err
    s2m_error := err
    ack_re := are }

/-- Clock-edge update of `Mem`'s registered state, from the committed
inputs: the memory write `If(we, storage[adr].eq(dat_w))` and the port's
registered read address (WRITE_FIRST), plus the `self.sync` blocks
`ack_we.eq(we)` (lines 83-85) and `addr_new.eq(m2s_addr)`,
`ack_re_reg.eq(ack_re)` (lines 95-98). Written words are truncated to
`data_width` bits by the storage signal width. -/
def memStep (data_width mem_size : Nat) (s : MemState) (i : MemIn) : MemState :=
  { storage :=
      if i.m2s_we then
        s.storage.set (storageIndex mem_size s.storage.length i.m2s_addr)
          (i.m2s_data % 2 ^ data_width)
      else s.storage
    adrReg := portAdr mem_size i.m2s_addr
    ack_we := i.m2s_we
    addr_new := i.m2s_addr % 2 ^ data_width
    ack_re_reg := ackRe s.addr_new i.m2s_addr i.m2s_we }

/-- Iterated clock edges of `Mem` with the inputs held constant. -/
def memSteps (data_width mem_size : Nat) : Nat → MemState → MemIn → MemState
  | 0, s, _ => s
  | n + 1, s, i => memStep data_width mem_size (memSteps data_width mem_size n s i) i

/-- The `Mem` state at reset: storage pre-populated from the (absent)
initialization list, hence all zeros; registers at their reset value. -/
def memReset (mem_size : Nat) : MemState :=
  { storage := List.replicate mem_size 0
    adrReg := 0
    ack_we := false
    addr_new := 0
    ack_re_reg := false }

/-- Values of the initiator-side signals `m2s_addr`, `m2s_data`
(`Signal(mem_size)` each, lines 141-142) and `m2s_we`. -/
structure MasterIn where
  m2s_addr : Nat
  m2s_data : Nat
  m2s_we : Bool
deriving Repr, DecidableEq

/-- Comb connection from the `Master` signals to the `slave` inputs
(lines 153-156): each assignment truncates to the slave signal width
(`data_width` bits for address and data). -/
def toSlave (data_width : Nat) (i : MasterIn) : MemIn :=
  { m2s_addr := i.m2s_addr % 2 ^ data_width
    m2s_data := i.m2s_data % 2 ^ data_width
    m2s_we := i.m2s_we }

/-- An abstract responder driven by the master: a registered-state step
applied at each clock edge and a combinational output function. -/
structure Responder (σ : Type) where
  step : σ → MemIn → σ
  out : σ → MemIn → MemOut

/-- The `Mem` module as the responder. -/
def memResponder (data_width mem_size : Nat) : Responder MemState :=
  { step := memStep data_width mem_size
    out := fun s i => memOut mem_size s i }

/-- State of one simulation: the responder's registered state, the
committed master signal values (as seen by the circuit and by testbench
reads), and the pending values written by the testbench since its last
`yield` (committed at the next `yield`). -/
structure Sim (σ : Type) where
  resp : σ
  icmt : MasterIn
  ipend : MasterIn

/-- One plain `yield` of the testbench: the pending signal writes commit
and one clock edge updates the responder's registered state from them. -/
def tick (data_width : Nat) (R : Responder σ) (m : Sim σ) : Sim σ :=
  { resp := R.step m.resp (toSlave data_width m.ipend)
    icmt := m.ipend
    ipend := m.ipend }

/-- Outputs observed by the testbench: settled from the committed inputs
and the current registered state. -/
def obs (data_width : Nat) (R : Responder σ) (m : Sim σ) : MemOut :=
  R.out m.resp (toSlave data_width m.icmt)

/-- Testbench signal writes `m2s_addr.eq`, `m2s_data.eq`, `m2s_we.eq`:
pending until the next `yield`, truncated to the master signal width
(`mem_size` bits for address and data, 1 bit for `we`). -/
def setAddr (mem_size : Nat) (m : Sim σ) (v : Nat) : Sim σ :=
  { m with ipend := { m.ipend with m2s_addr := v % 2 ^ mem_size } }

/-- Pending write of the master data signal (`mem_size` bits wide). -/
def setData (mem_size : Nat) (m : Sim σ) (v : Nat) : Sim σ :=
  { m with ipend := { m.ipend with m2s_data := v % 2 ^ mem_size } }

/-- Pending write of the master write-enable signal. -/
def setWe (m : Sim σ) (v : Bool) : Sim σ :=
  { m with ipend := { m.ipend with m2s_we := v } }

/-- The poll loop shared by `Master.write` and `Master.read` (lines
173-176 and 186-189): while neither `s2m_ack` nor `s2m_error` is read as
set, increment `timeout`, fail fatally (`assert timeout < 20`) when it
reaches 20, otherwise `yield` one tick and poll again; on success return
the sampled `(s2m_data, s2m_error)`.  `fuel` is the number of remaining
permitted iterations, `19 - timeout` at every reachable call, so the
fatal branch is taken exactly when `timeout` would reach 20; the
`.error` payload is the failing value of `timeout`. -/
def pollLoop (data_width : Nat) (R : Responder σ) :
    Nat → Sim σ → Nat → Except Nat ((Nat × Bool) × Sim σ)
  | fuel, m, timeout =>
    let o := obs data_width R m
    if o.s2m_ack || o.s2m_error then
      .ok ((o.s2m_data, o.s2m_error), m)
    else
      match fuel with
      | 0 => .error (timeout + 1)
      | fuel + 1 => pollLoop data_width R fuel (tick data_width R m) (timeout + 1)

/-- `Master.write(adr, dat)` (lines 166-179): set address, data and
write-enable; `yield` one tick; clear write-enable (pending, so the first
poll still observes the committed `we = 1`); run the poll loop; return
the sampled `(value, error)` or fail fatally on timeout. -/
def masterWrite (data_width mem_size : Nat) (R : Responder σ) (m : Sim σ)
    (adr dat : Nat) : Except Nat ((Nat × Bool) × Sim σ) :=
  let m := setAddr mem_size m adr
  let m := setData mem_size m dat
  let m := setWe m true
  let m := tick data_width R m
  let m := setWe m false
  pollLoop data_width R 19 m 0

/-- `Master.read(adr)` (lines 182-192): set the address; `yield` one
tick; run the poll loop; return the sampled `(value, error)` or fail
fatally on timeout. -/
def masterRead (data_width mem_size : Nat) (R : Responder σ) (m : Sim σ)
    (adr : Nat) : Except Nat ((Nat × Bool) × Sim σ) :=
  let m := setAddr mem_size m adr
  let m := tick data_width R m
  pollLoop data_width R 19 m 0

/-- Simulation state at reset: responder at reset, all master signals 0. -/
def simReset (mem_size : Nat) : Sim MemState :=
  { resp := memReset mem_size
    icmt := { m2s_addr := 0, m2s_data := 0, m2s_we := false }
    ipend := { m2s_addr := 0, m2s_data := 0, m2s_we := false } }

/-- A fault-injected responder that never asserts `ack` or `error`. -/
def stuckResponder : Responder Unit :=
  { step := fun _ _ => ()
    out := fun _ _ => { s2m_data := 0, s2m_ack := false, s2m_error := false, ack_re := false } }

/-- Error flag of a completed master operation, `none` on fatal timeout. -/
def errFlagOf (r : Except Nat ((Nat × Bool) × Sim MemState)) : Option Bool :=
  match r with
  | .ok ((_, e), _) => some e
  | .error _ => none

/-- Widths (in bits) of the six interface signals of one module. -/
structure SignalWidths where
  addr_w : Nat
  data_w : Nat
  we_w : Nat
  datr_w : Nat
  ack_w : Nat
  err_w : Nat
deriving Repr, DecidableEq

/-- Signal widths declared by `Mem.__init__` (lines 37-45): `m2s_addr`,
`m2s_data` and `s2m_data` are `Signal(data_width)`; `m2s_we`, `s2m_ack`
and `s2m_error` are one bit. -/
def memSignalWidths (data_width _mem_size : Nat) : SignalWidths :=
  { addr_w := data_width, data_w := data_width, we_w := 1
    datr_w := data_width, ack_w := 1, err_w := 1 }

/-- Signal widths declared by `Master.__init__` (lines 139-148):
`m2s_addr`, `m2s_data` and `s2m_data` are `Signal(mem_size)`; `m2s_we`,
`s2m_ack` and `s2m_error` are one bit. -/
def masterSignalWidths (mem_size _data_width : Nat) : SignalWidths :=
  { addr_w := mem_size, data_w := mem_size, we_w := 1
    datr_w := mem_size, ack_w := 1, err_w := 1 }

/-- Helper: reading back the element just written, when in range. -/
theorem getD_set_self (l : List Nat) (n a : Nat) (h : n < l.length) :
    ((l.set n a)[n]?).getD 0 = a := by
  induction l generalizing n with
  | nil => simp at h
  | cons x xs ih =>
    cases n with
    | zero => simp
    | succ k => simpa using ih k (by simpa using h)

/-- Helper: the poll loop returns at its first poll when that poll
observes `ack` or `error`. -/
theorem pollLoop_first (data_width : Nat) (R : Responder σ) (fuel : Nat)
    (m : Sim σ) (t : Nat)
    (h : ((obs data_width R m).s2m_ack || (obs data_width R m).s2m_error) = true) :
    pollLoop data_width R fuel m t =
      .ok (((obs data_width R m).s2m_data, (obs data_width R m).s2m_error), m) := by
  unfold pollLoop
  simp only [h, if_true]

/-- Helper: against a responder that never asserts `ack` or `error`, the
poll loop exhausts its whole budget and fails with the counter value
`t + fuel + 1`. -/
theorem pollLoop_stuck (data_width : Nat) (R : Responder σ)
    (h : ∀ s i, (R.out s i).s2m_ack = false ∧ (R.out s i).s2m_error = false) :
    ∀ (fuel : Nat) (m : Sim σ) (t : Nat),
      pollLoop data_width R fuel m t = .error (t + fuel + 1)
  | 0, m, t => by
    unfold pollLoop
    simp [obs, (h _ _).1, (h _ _).2]
  | fuel + 1, m, t => by
    unfold pollLoop
    simp [obs, (h _ _).1, (h _ _).2]
    rw [pollLoop_stuck data_width R h fuel (tick data_width R m) (t + 1)]
    congr 1
    omega

/-- C5: at every tick, for every registered state and every input, the
Mem responder's error output is asserted iff the current unsigned address
value is at least `mem_size`; the right-hand side mentions neither the
write-enable nor any registered state, so the computation is
combinational (no delay) and independent of write/read. -/
theorem error_iff_out_of_range (mem_size : Nat) (s : MemState) (i : MemIn) :
    ((memOut mem_size s i).s2m_error = true ↔ mem_size ≤ i.m2s_addr) := by
  simp [memOut, errorOut]

/-- C4: in every state of the Mem responder, at every tick, an asserted
ack output implies the error output is deasserted. -/
theorem ack_implies_no_error (mem_size : Nat) (s : MemState) (i : MemIn)
    (h : (memOut mem_size s i).s2m_ack = true) :
    (memOut mem_size s i).s2m_error = false := by
  simp only [memOut, Bool.and_eq_true, Bool.not_eq_eq_eq_not, Bool.not_true] at h
  simpa [memOut] using h.2

/-- C4 witness: a concrete tick (reset state, address 0, no write) where
ack is asserted and the error output is deasserted. -/
theorem ack_implies_no_error_witness :
    (memOut 10 (memReset 10) ⟨0, 0, false⟩).s2m_ack = true ∧
    (memOut 10 (memReset 10) ⟨0, 0, false⟩).s2m_error = false :=
  ⟨by decide, ack_implies_no_error 10 (memReset 10) ⟨0, 0, false⟩ (by decide)⟩

/-- C3: on every tick in which the write enable is asserted, the storage
word selected by the current address (truncated to the port address
width, then resolved to a storage index as the simulator does) is
overwritten with the current data, with no condition on the error flag. -/
theorem write_commit_unconditional (data_width mem_size : Nat) (s : MemState)
    (i : MemIn) (hwe : i.m2s_we = true) :
    (memStep data_width mem_size s i).storage =
      s.storage.set (storageIndex mem_size s.storage.length i.m2s_addr)
        (i.m2s_data % 2 ^ data_width) := by
  simp [memStep, hwe]

/-- C3 witness: a write at out-of-range address 15 (default configuration,
`mem_size = 10`) still mutates the store — at the index the port address
resolves to — while the transaction is reported with error asserted. -/
theorem write_commit_unconditional_witness :
    (memOut 10 (memReset 10) ⟨15, 7, true⟩).s2m_error = true ∧
    (memStep 8 10 (memReset 10) ⟨15, 7, true⟩).storage = (List.replicate 10 0).set 9 7 ∧
    (memStep 8 10 (memReset 10) ⟨15, 7, true⟩).storage ≠ (memReset 10).storage :=
  ⟨by decide,
   (write_commit_unconditional 8 10 (memReset 10) ⟨15, 7, true⟩ rfl).trans (by decide),
   by decide⟩

/-- C6: the write acknowledge is a registered signal equal to the
write-enable value of the previous tick; consequently, during a tick that
requests a write (write enable asserted) with no write pending from the
previous tick, the responder's ack output is deasserted — the write is
never acknowledged before the next tick. -/
theorem write_ack_registered (data_width mem_size : Nat) (s : MemState) (i : MemIn)
    (hwe : i.m2s_we = true) (hprev : s.ack_we = false) :
    (memStep data_width mem_size s i).ack_we = i.m2s_we ∧
    (memOut mem_size s i).s2m_ack = false := by
  refine ⟨rfl, ?_⟩
  simp [memOut, ackRe, hwe, hprev]

/-- C6 witness: concrete write request at the reset state: the ack output
stays low during the request tick and the registered write acknowledge is
set for the next tick. -/
theorem write_ack_registered_witness :
    (memStep 8 10 (memReset 10) ⟨0, 5, true⟩).ack_we = true ∧
    (memOut 10 (memReset 10) ⟨0, 5, true⟩).s2m_ack = false :=
  ⟨(write_ack_registered 8 10 (memReset 10) ⟨0, 5, true⟩ rfl rfl).1,
   (write_ack_registered 8 10 (memReset 10) ⟨0, 5, true⟩ rfl rfl).2⟩

/-- C8: at every tick, the read acknowledge equals
`(previous-tick address == current address) AND (write_enable == false)`,
the previous-tick address being the registered copy `addr_new` of the
address; holding the address stable with no write keeps it asserted at
every subsequent tick (a level signal, not a one-tick pulse). -/
theorem read_ack_level (data_width mem_size : Nat) (s : MemState) (i : MemIn)
    (hin : i.m2s_addr < 2 ^ data_width) :
    (memOut mem_size s i).ack_re = ((s.addr_new == i.m2s_addr) && !i.m2s_we) ∧
    (memStep data_width mem_size s i).addr_new = i.m2s_addr ∧
    ∀ n : Nat,
      (memOut mem_size (memSteps data_width mem_size (n + 1) s i) i).ack_re
        = !i.m2s_we := by
  refine ⟨rfl, ?_, ?_⟩
  · simp [memStep, Nat.mod_eq_of_lt hin]
  · intro n
    simp [memSteps, memOut, memStep, ackRe, Nat.mod_eq_of_lt hin]

/-- C8 witness: holding address 4 with no write, the read acknowledge is
asserted three ticks after the address change, showing the level
behaviour at a concrete input. -/
theorem read_ack_level_witness :
    (4 : Nat) < 2 ^ 8 ∧
    (memOut 10 (memSteps 8 10 3 (memReset 10) ⟨4, 0, false⟩) ⟨4, 0, false⟩).ack_re = true := by
  refine ⟨by decide, ?_⟩
  have h := (read_ack_level 8 10 (memReset 10) ⟨4, 0, false⟩ (by decide)).2.2 2
  simpa using h

/-- C10 counterexample: at the default configuration (`mem_size = 10`,
`data_width = 8`) the Master-side address and data signals are declared
10 bits wide (`Signal(mem_size)`), not `data_width = 8` bits as the
signal table states. -/
theorem master_width_counterexample :
    (masterSignalWidths 10 8).addr_w = 10 ∧ (masterSignalWidths 10 8).data_w = 10 ∧
    ¬((masterSignalWidths 10 8).addr_w = 8 ∧ (masterSignalWidths 10 8).data_w = 8) := by
  decide

/-- C10 amended: the Mem responder's address, data and read-data signals
are `data_width` bits wide and its flags one bit, but the Master-side
address, data and read-data signals are `mem_size` bits wide; accordingly
a value driven on the Master address signal is truncated modulo
`2 ^ mem_size`. -/
theorem interface_widths (mem_size data_width : Nat) :
    memSignalWidths data_width mem_size =
      { addr_w := data_width, data_w := data_width, we_w := 1
        datr_w := data_width, ack_w := 1, err_w := 1 } ∧
    masterSignalWidths mem_size data_width =
      { addr_w := mem_size, data_w := mem_size, we_w := 1
        datr_w := mem_size, ack_w := 1, err_w := 1 } ∧
    ∀ (σ : Type) (R : Responder σ) (m : Sim σ) (adr : Nat),
      masterRead data_width mem_size R m adr =
        masterRead data_width mem_size R m (adr % 2 ^ mem_size) := by
  refine ⟨rfl, rfl, ?_⟩
  intro σ R m adr
  unfold masterRead setAddr
  rw [Nat.mod_mod_of_dvd adr dvd_rfl]

/-- C7: if the responder never asserts ack or error, `Master.write` and
`Master.read` each fail fatally with the protocol timeout at exactly the
20th polled tick: the loop's counter is incremented once per polled tick
and `assert timeout < 20` fires when it reaches 20, neither earlier nor
later. -/
theorem stuck_timeout (data_width mem_size : Nat) (σ : Type) (R : Responder σ)
    (h : ∀ s i, (R.out s i).s2m_ack = false ∧ (R.out s i).s2m_error = false)
    (m : Sim σ) (adr dat : Nat) :
    masterWrite data_width mem_size R m adr dat = .error 20 ∧
    masterRead data_width mem_size R m adr = .error 20 := by
  constructor
  · show pollLoop data_width R 19 _ 0 = _
    rw [pollLoop_stuck data_width R h 19 _ 0]
  · show pollLoop data_width R 19 _ 0 = _
    rw [pollLoop_stuck data_width R h 19 _ 0]

/-- C7 witness: a concrete write and read against the stuck responder,
both failing with the counter at exactly 20. -/
theorem stuck_timeout_witness :
    masterWrite 8 10 stuckResponder ⟨(), ⟨0, 0, false⟩, ⟨0, 0, false⟩⟩ 3 5 = .error 20 ∧
    masterRead 8 10 stuckResponder ⟨(), ⟨0, 0, false⟩, ⟨0, 0, false⟩⟩ 3 = .error 20 :=
  stuck_timeout 8 10 Unit stuckResponder (fun _ _ => ⟨rfl, rfl⟩)
    ⟨(), ⟨0, 0, false⟩, ⟨0, 0, false⟩⟩ 3 5

/-- Helper: whatever the committed master signals were at the preceding
tick, the Mem responder presents `ack` or `error` at the very first poll
after that tick (after a write request, the registered write acknowledge
is set; otherwise the registered address copy already matches). -/
theorem mem_first_poll (data_width mem_size : Nat) (s : MemState) (I : MasterIn) :
    ((memOut mem_size (memStep data_width mem_size s (toSlave data_width I))
        (toSlave data_width I)).s2m_ack ||
     (memOut mem_size (memStep data_width mem_size s (toSlave data_width I))
        (toSlave data_width I)).s2m_error) = true := by
  have hmm : I.m2s_addr % 2 ^ data_width % 2 ^ data_width
      = I.m2s_addr % 2 ^ data_width := Nat.mod_mod_of_dvd _ dvd_rfl
  cases hwe : I.m2s_we <;>
    cases herr : errorOut mem_size (I.m2s_addr % 2 ^ data_width) <;>
      simp [memOut, memStep, ackRe, toSlave, hwe, herr, hmm]

/-- C9: with the Mem responder and `mem_size ≥ 1`, the timeout branch of
the poll loop is unreachable: from any simulation state and for every
address and data argument, `Master.write` and `Master.read` observe ack
or error at their first poll, so they return normally and the fatal
ProtocolTimeout assertion never fires. -/
theorem no_timeout_with_mem (data_width mem_size : Nat) (_hms : 1 ≤ mem_size)
    (m : Sim MemState) (adr dat : Nat) :
    (∃ r, masterWrite data_width mem_size (memResponder data_width mem_size) m adr dat
        = .ok r) ∧
    (∃ r, masterRead data_width mem_size (memResponder data_width mem_size) m adr
        = .ok r) := by
  constructor
  · refine ⟨_, pollLoop_first data_width (memResponder data_width mem_size) 19 _ 0 ?_⟩
    exact mem_first_poll data_width mem_size m.resp _
  · refine ⟨_, pollLoop_first data_width (memResponder data_width mem_size) 19 _ 0 ?_⟩
    exact mem_first_poll data_width mem_size m.resp _

/-- C9 witness: concrete write and read at the default configuration and
the reset state both complete normally. -/
theorem no_timeout_with_mem_witness :
    (1 : Nat) ≤ 10 ∧
    ((∃ r, masterWrite 8 10 (memResponder 8 10) (simReset 10) 3 5 = .ok r) ∧
     (∃ r, masterRead 8 10 (memResponder 8 10) (simReset 10) 3 = .ok r)) :=
  ⟨by omega, no_timeout_with_mem 8 10 (by omega) (simReset 10) 3 5⟩

/-- C2 counterexample: address 256 is representable on the Master's
address signal (10 bits at the default configuration) and satisfies
`256 ≥ mem_size`, yet `Master.read 256` completes with the error
component false: the address is truncated to 8 bits at the Mem boundary
and aliases to address 0, which is in range. -/
theorem read_aliased_no_error :
    errFlagOf (masterRead 8 10 (memResponder 8 10) (simReset 10) 256) = some false ∧
    10 ≤ 256 := ⟨rfl, by omega⟩

/-- C2 amended: at the default configuration, for every address with
`mem_size ≤ addr < 2 ^ data_width` (so that truncation to the responder's
8-bit address signal does not change it), `Master.read addr` returns with
the error component true. -/
theorem read_out_of_range_error (m : Sim MemState) (adr : Nat)
    (h1 : 10 ≤ adr) (h2 : adr < 2 ^ 8) :
    ∃ d m1, masterRead 8 10 (memResponder 8 10) m adr = .ok ((d, true), m1) := by
  have h2' : adr < 256 := by norm_num at h2; omega
  have h10a : adr % 1024 = adr := by omega
  have h8a : adr % 256 = adr := by omega
  have herr : (obs 8 (memResponder 8 10)
      (tick 8 (memResponder 8 10) (setAddr 10 m adr))).s2m_error = true := by
    simp [obs, tick, setAddr, toSlave, memResponder, memOut, errorOut, h10a, h8a, h1]
  refine ⟨(obs 8 (memResponder 8 10)
      (tick 8 (memResponder 8 10) (setAddr 10 m adr))).s2m_data,
    tick 8 (memResponder 8 10) (setAddr 10 m adr), ?_⟩
  show pollLoop 8 (memResponder 8 10) 19
      (tick 8 (memResponder 8 10) (setAddr 10 m adr)) 0 = _
  rw [pollLoop_first _ _ _ _ _ (by rw [herr]; simp), herr]

/-- C2 witness (for the amended claim): reading address 15 from the reset
state reports the error. -/
theorem read_out_of_range_error_witness :
    (10 : Nat) ≤ 15 ∧ (15 : Nat) < 2 ^ 8 ∧
    ∃ d m1, masterRead 8 10 (memResponder 8 10) (simReset 10) 15 = .ok ((d, true), m1) :=
  ⟨by omega, by norm_num, read_out_of_range_error (simReset 10) 15 (by omega) (by norm_num)⟩

/-- C1: with the default configuration (`data_width = 8`, `mem_size = 10`),
from any simulation state whose store holds 10 words, for every address
`adr < mem_size` and value `dat < 2 ^ data_width`, `Master.write adr dat`
returns `(dat, false)` and an immediately following `Master.read adr`
also returns `(dat, false)`. -/
theorem write_read_roundtrip (m : Sim MemState) (hlen : m.resp.storage.length = 10)
    (adr dat : Nat) (ha : adr < 10) (hd : dat < 2 ^ 8) :
    ∃ m1 m2,
      masterWrite 8 10 (memResponder 8 10) m adr dat = .ok ((dat, false), m1) ∧
      masterRead 8 10 (memResponder 8 10) m1 adr = .ok ((dat, false), m2) := by
  have e16 : (2:Nat) ^ adrBits 10 = 16 := by decide
  have hd' : dat < 256 := by norm_num at hd; omega
  have h10a : adr % 1024 = adr := by omega
  have h10d : dat % 1024 = dat := by omega
  have h8a : adr % 256 = adr := by omega
  have h8d : dat % 256 = dat := by omega
  have h16a : adr % 16 = adr := by omega
  have hnle : ¬ (10 ≤ adr) := by omega
  have hmin : min adr 9 = adr := by omega
  have hget : ((m.resp.storage.set adr dat)[adr]?).getD 0 = dat :=
    getD_set_self m.resp.storage adr dat (by omega)
  have hMW : setWe (tick 8 (memResponder 8 10)
      (setWe (setData 10 (setAddr 10 m adr) dat) true)) false =
      ({ resp := memStep 8 10 m.resp ⟨adr, dat, true⟩
         icmt := ⟨adr, dat, true⟩
         ipend := ⟨adr, dat, false⟩ } : Sim MemState) := by
    simp [setAddr, setData, setWe, tick, toSlave, memResponder, h10a, h10d, h8a, h8d]
  have hs1 : memStep 8 10 m.resp ⟨adr, dat, true⟩ =
      ({ storage := m.resp.storage.set adr dat
         adrReg := adr
         ack_we := true
         addr_new := adr
         ack_re_reg := ackRe m.resp.addr_new adr true } : MemState) := by
    simp [memStep, storageIndex, portAdr, e16, h16a, h8a, h8d, hlen, hmin]
  have hobs : obs 8 (memResponder 8 10)
      ({ resp := memStep 8 10 m.resp ⟨adr, dat, true⟩
         icmt := ⟨adr, dat, true⟩
         ipend := ⟨adr, dat, false⟩ } : Sim MemState) =
      ({ s2m_data := dat, s2m_ack := true, s2m_error := false
         ack_re := false } : MemOut) := by
    rw [obs]
    simp [memResponder, toSlave, h8a, h8d, hs1, memOut, ackRe, errorOut, hnle,
      List.length_set, hlen, hmin, hget]
  have hMR : tick 8 (memResponder 8 10) (setAddr 10
      ({ resp := memStep 8 10 m.resp ⟨adr, dat, true⟩
         icmt := ⟨adr, dat, true⟩
         ipend := ⟨adr, dat, false⟩ } : Sim MemState) adr) =
      ({ resp := memStep 8 10 (memStep 8 10 m.resp ⟨adr, dat, true⟩) ⟨adr, dat, false⟩
         icmt := ⟨adr, dat, false⟩
         ipend := ⟨adr, dat, false⟩ } : Sim MemState) := by
    simp [setAddr, tick, toSlave, memResponder, h10a, h8a, h8d]
  have hs2 : memStep 8 10 (memStep 8 10 m.resp ⟨adr, dat, true⟩) ⟨adr, dat, false⟩ =
      ({ storage := m.resp.storage.set adr dat
         adrReg := adr
         ack_we := false
         addr_new := adr
         ack_re_reg := ackRe adr adr false } : MemState) := by
    rw [hs1]
    simp [memStep, portAdr, e16, h16a, h8a]
  have hobs2 : obs 8 (memResponder 8 10)
      ({ resp := memStep 8 10 (memStep 8 10 m.resp ⟨adr, dat, true⟩) ⟨adr, dat, false⟩
         icmt := ⟨adr, dat, false⟩
         ipend := ⟨adr, dat, false⟩ } : Sim MemState) =
      ({ s2m_data := dat, s2m_ack := true, s2m_error := false
         ack_re := true } : MemOut) := by
    rw [obs]
    simp [memResponder, toSlave, h8a, h8d, hs2, memOut, ackRe, errorOut, hnle,
      List.length_set, hlen, hmin, hget]
  refine ⟨({ resp := memStep 8 10 m.resp ⟨adr, dat, true⟩
             icmt := ⟨adr, dat, true⟩
             ipend := ⟨adr, dat, false⟩ } : Sim MemState),
    ({ resp := memStep 8 10 (memStep 8 10 m.resp ⟨adr, dat, true⟩) ⟨adr, dat, false⟩
       icmt := ⟨adr, dat, false⟩
       ipend := ⟨adr, dat, false⟩ } : Sim MemState), ?_, ?_⟩
  · show pollLoop 8 (memResponder 8 10) 19 (setWe (tick 8 (memResponder 8 10)
        (setWe (setData 10 (setAddr 10 m adr) dat) true)) false) 0 = _
    rw [hMW, pollLoop_first _ _ _ _ _ (by rw [hobs]; rfl), hobs]
  · show pollLoop 8 (memResponder 8 10) 19 (tick 8 (memResponder 8 10) (setAddr 10
        ({ resp := memStep 8 10 m.resp ⟨adr, dat, true⟩
           icmt := ⟨adr, dat, true⟩
           ipend := ⟨adr, dat, false⟩ } : Sim MemState) adr)) 0 = _
    rw [hMR, pollLoop_first _ _ _ _ _ (by rw [hobs2]; rfl), hobs2]

/-- C1 witness: the spec's concrete scenario `write(3, 42)` then
`read(3)` from the reset state, both returning `(42, false)`. -/
theorem write_read_roundtrip_witness :
    (simReset 10).resp.storage.length = 10 ∧ (3 : Nat) < 10 ∧ (42 : Nat) < 2 ^ 8 ∧
    ∃ m1 m2,
      masterWrite 8 10 (memResponder 8 10) (simReset 10) 3 42 = .ok ((42, false), m1) ∧
      masterRead 8 10 (memResponder 8 10) m1 3 = .ok ((42, false), m2) :=
  ⟨by decide, by decide, by decide,
   write_read_roundtrip (simReset 10) (by decide) 3 42 (by decide) (by decide)⟩

end RwMem
